import Mathlib

/-!
Shallow embedding of the dynamic camera discovery, per-camera polling and
frame relay logic of the Akri video streaming sample application
(samples/apps/video-streaming-app/streaming.py and app.py).

A FrameChannel in the source is a queue.Queue(1); it is modelled as an
Option Frame (empty slot or one buffered frame). Blocking calls are
modelled by returning none when the caller would block. The reconciler
loop bodies (refresh_cameras in both revisions) are modelled as pure
state-transition functions, and the worker stop/start choreography of
schedule_get_frames and CameraDisplay.merge as explicit action traces.
-/

namespace VideoStreaming

/-- A frame is a byte string fetched from a camera service. -/
abbrev Frame := List UInt8

/-- An endpoint is the host:port url of one camera service. -/
abbrev Endpoint := String

/-- The state of a queue.Queue(1): empty, or holding one unread frame. -/
abbrev FrameQueue := Option Frame

/-- queue.Queue.full() on a capacity-1 queue. -/
def queue_full (q : FrameQueue) : Bool := q.isSome

/-- queue.Queue.get(False): the item and the emptied queue, or none when the
queue is empty (the queue.Empty exception). -/
def queue_get_nowait (q : FrameQueue) : Option (Frame × FrameQueue) :=
  match q with
  | some f => some (f, none)
  | none => none

/-- queue.Queue.put(item, False): the new queue, or none when the queue is
already full (the queue.Full exception). -/
def queue_put_nowait (q : FrameQueue) (f : Frame) : Option FrameQueue :=
  match q with
  | none => some (some f)
  | some _ => none

/-- The publish step inside get_frames (streaming.py lines 116-125, identical
in app.py CameraFeed.get_frames lines 62-71): only a non-empty frame is
published; if the queue is full it is drained with get(False) (the Empty
exception being swallowed), then the frame is put with put(frame, False)
(a Full exception would be caught by the enclosing bare except, leaving the
queue as it was). -/
def get_frames_publish (q : FrameQueue) (frame : Frame) : FrameQueue :=
  if 0 < frame.length then
    let q1 := if queue_full q then
        match queue_get_nowait q with
        | some (_, rest) => rest
        | none => q
      else q
    match queue_put_nowait q1 frame with
    | some q2 => q2
    | none => q1
  else q

/-- frame_queue.get(True, None): the blocking consume used by the streaming
generators; none means the reader blocks (no frame available). -/
def frame_queue_get (q : FrameQueue) : Option (Frame × FrameQueue) :=
  queue_get_nowait q

/-- Helper: publishing a non-empty frame always leaves exactly that frame
buffered, whatever the queue held before. -/
lemma get_frames_publish_pos (frame : Frame) (hf : 0 < frame.length)
    (q : FrameQueue) : get_frames_publish q frame = some frame := by
  cases q <;>
    simp [get_frames_publish, hf, queue_full, queue_get_nowait, queue_put_nowait]

/-- Claim C1: drop-oldest. For any frame queue, publishing a, then b, with no
consume in between, makes a subsequent consume return b (never a); and the
publish operation, when the slot already holds an unread frame, replaces it. -/
theorem publish_drop_oldest (q : FrameQueue) (a b : Frame)
    (ha : 0 < a.length) (hb : 0 < b.length) :
    frame_queue_get (get_frames_publish (get_frames_publish q a) b)
        = some (b, none)
      ∧ ∀ f : Frame, get_frames_publish (some f) b = some b := by
  constructor
  · rw [get_frames_publish_pos a ha q, get_frames_publish_pos b hb (some a)]
    rfl
  · intro f
    exact get_frames_publish_pos b hb (some f)

/-- Witness for C1 at the concrete frames a = [1], b = [2] and an initially
empty queue. -/
theorem publish_drop_oldest_witness :
    frame_queue_get (get_frames_publish (get_frames_publish none [1]) [2])
        = some ([2], none)
      ∧ get_frames_publish (some [1]) [2] = some [2] :=
  ⟨(publish_drop_oldest none [1] [2] (by decide) (by decide)).1,
   (publish_drop_oldest none [1] [2] (by decide) (by decide)).2 [1]⟩

/-- The module-level relay state of streaming.py: the discovered list of
secondary camera urls (small_frame_sources) and the channel collection
(camera_frame_queues, index 0 for the primary camera, index i for the
secondary at position i - 1). -/
structure RelayState where
  small_frame_sources : List Endpoint
  camera_frame_queues : List FrameQueue
  deriving DecidableEq

/-- One iteration body of refresh_cameras (streaming.py lines 79-99): compare
the freshly discovered camera_list against small_frame_sources by value; if
different, resize camera_frame_queues (append fresh empty queues on growth,
truncate to old_count - new_count elements on shrink), install the new list
and call schedule_get_frames. The boolean is true exactly when
schedule_get_frames was called (a full worker stop and restart). -/
def refresh_cameras_step (s : RelayState) (camera_list : List Endpoint) :
    RelayState × Bool :=
  if camera_list ≠ s.small_frame_sources then
    let old_count := s.small_frame_sources.length
    let new_count := camera_list.length
    if old_count ≠ new_count then
      if old_count < new_count then
        ({ small_frame_sources := camera_list,
           camera_frame_queues :=
             s.camera_frame_queues ++ List.replicate (new_count - old_count) none },
         true)
      else
        ({ small_frame_sources := camera_list,
           camera_frame_queues :=
             s.camera_frame_queues.take (old_count - new_count) },
         true)
    else
      ({ s with small_frame_sources := camera_list }, true)
  else (s, false)

/-- One refresh_cameras iteration with a fallible discovery query. The body of
the while-loop in refresh_cameras has no try/except: an exception from
get_camera_list propagates out of the loop and terminates the refresh thread.
Result: (state after the cycle, whether workers were stopped and restarted,
whether the loop continues to the next period). -/
def refresh_cameras_cycle (s : RelayState)
    (disc : Except Unit (List Endpoint)) : RelayState × Bool × Bool :=
  match disc with
  | Except.error _ => (s, false, false)
  | Except.ok camera_list =>
      let r := refresh_cameras_step s camera_list
      (r.1, r.2, true)

/-- CameraFeed equality (app.py lines 31-34 plus the Python semantics of
comparing with None): two feeds are equal when their urls are; None equals
only None. -/
def camera_feed_eq (a b : Option Endpoint) : Bool :=
  match a, b with
  | none, none => true
  | none, some _ => false
  | some _, none => false
  | some u, some v => u == v

/-- The observable state of a CameraDisplay (app.py lines 80-84): the optional
primary camera url and the list of secondary camera urls. -/
structure CameraDisplayState where
  main_camera : Option Endpoint
  small_cameras : List Endpoint
  deriving DecidableEq

/-- CameraDisplay equality (app.py lines 86-87): main cameras equal and
secondary lists equal element by element (CameraFeed equality is url
equality). -/
def camera_display_eq (a b : CameraDisplayState) : Bool :=
  camera_feed_eq a.main_camera b.main_camera
    && (a.small_cameras == b.small_cameras)

/-- One iteration body of refresh_cameras in the CameraDisplay revision
(app.py lines 181-187): if the freshly built display differs from the current
one, merge it (stop and join all current workers, install the new cameras,
start new workers); otherwise do nothing. The boolean is true exactly when
merge was called. -/
def refresh_cameras_app_step (cur disc : CameraDisplayState) :
    CameraDisplayState × Bool :=
  if camera_display_eq disc cur then (cur, false) else (disc, true)

/-- Claim C3: reconciliation idempotence. A discovery result equal by value to
the current producer set causes no worker stop, no worker start, and leaves
the producer set and its channels unchanged, in both revisions. -/
theorem refresh_unchanged_is_noop (s : RelayState) (camera_list : List Endpoint)
    (cur disc : CameraDisplayState) :
    (camera_list = s.small_frame_sources →
        refresh_cameras_step s camera_list = (s, false))
      ∧ (camera_display_eq disc cur = true →
        refresh_cameras_app_step cur disc = (cur, false)) := by
  constructor
  · intro h
    simp [refresh_cameras_step, h]
  · intro h
    simp [refresh_cameras_app_step, h]

/-- Witness for C3: an unchanged discovery result for two concrete states. -/
theorem refresh_unchanged_is_noop_witness :
    refresh_cameras_step ⟨["a", "b"], [none, none, none]⟩ ["a", "b"]
        = (⟨["a", "b"], [none, none, none]⟩, false)
      ∧ refresh_cameras_app_step ⟨some "m", ["a"]⟩ ⟨some "m", ["a"]⟩
        = (⟨some "m", ["a"]⟩, false) :=
  ⟨(refresh_unchanged_is_noop ⟨["a", "b"], [none, none, none]⟩ ["a", "b"]
      ⟨some "m", ["a"]⟩ ⟨some "m", ["a"]⟩).1 rfl,
   (refresh_unchanged_is_noop ⟨["a", "b"], [none, none, none]⟩ ["a", "b"]
      ⟨some "m", ["a"]⟩ ⟨some "m", ["a"]⟩).2 (by decide)⟩

/-- Claim C2: membership change with equal count still triggers a full worker
replacement. The comparison is by value, so two endpoint lists of equal
length with different membership compare as different and schedule_get_frames
(respectively merge) is invoked, installing the new list. -/
theorem membership_change_triggers_replacement (s : RelayState)
    (camera_list : List Endpoint) (cur disc : CameraDisplayState) :
    (s.small_frame_sources.length = camera_list.length →
        (∃ x, (x ∈ camera_list ∧ x ∉ s.small_frame_sources)
            ∨ (x ∈ s.small_frame_sources ∧ x ∉ camera_list)) →
        refresh_cameras_step s camera_list
          = ({ s with small_frame_sources := camera_list }, true))
      ∧ (cur.small_cameras.length = disc.small_cameras.length →
        (∃ x, (x ∈ disc.small_cameras ∧ x ∉ cur.small_cameras)
            ∨ (x ∈ cur.small_cameras ∧ x ∉ disc.small_cameras)) →
        refresh_cameras_app_step cur disc = (disc, true)) := by
  constructor
  · intro hlen hx
    have hne : camera_list ≠ s.small_frame_sources := by
      intro h
      rcases hx with ⟨x, hx | hx⟩
      · exact hx.2 (h ▸ hx.1)
      · exact hx.2 (h ▸ hx.1)
    simp [refresh_cameras_step, hne, hlen]
  · intro _ hx
    have hne : disc.small_cameras ≠ cur.small_cameras := by
      intro h
      rcases hx with ⟨x, hx | hx⟩
      · exact hx.2 (h ▸ hx.1)
      · exact hx.2 (h ▸ hx.1)
    have heq : camera_display_eq disc cur = false := by
      simp [camera_display_eq, hne]
    simp [refresh_cameras_app_step, heq]

/-- Witness for C2: current secondaries [a, b], discovered [a, c] — equal
count, different membership — triggers replacement in both revisions. -/
theorem membership_change_triggers_replacement_witness :
    refresh_cameras_step ⟨["a", "b"], [none, none, none]⟩ ["a", "c"]
        = (⟨["a", "c"], [none, none, none]⟩, true)
      ∧ refresh_cameras_app_step ⟨some "m", ["a", "b"]⟩ ⟨some "m", ["a", "c"]⟩
        = (⟨some "m", ["a", "c"]⟩, true) :=
  ⟨(membership_change_triggers_replacement ⟨["a", "b"], [none, none, none]⟩
      ["a", "c"] ⟨some "m", ["a", "b"]⟩ ⟨some "m", ["a", "c"]⟩).1 rfl
      ⟨"c", Or.inl ⟨by decide, by decide⟩⟩,
   (membership_change_triggers_replacement ⟨["a", "b"], [none, none, none]⟩
      ["a", "c"] ⟨some "m", ["a", "b"]⟩ ⟨some "m", ["a", "c"]⟩).2 rfl
      ⟨"c", Or.inl ⟨by decide, by decide⟩⟩⟩

/-- Claim C4, counterexample: when the discovery query raises, the exception
propagates out of the refresh_cameras while-loop: the state is untouched, but
the loop does not continue to the next period — the reconciliation thread
terminates and the query is never retried, contradicting the claim that the
loop never terminates because of a discovery error. -/
theorem discovery_error_kills_loop :
    refresh_cameras_cycle ⟨["b"], [none, none]⟩ (Except.error ())
      = (⟨["b"], [none, none]⟩, false, false) := rfl

/-- Claim C4, amended: on a discovery-source failure the reconciler performs
no partial update — the producer set and its channels are left completely
unchanged and no worker is stopped or started — but the exception is not
caught: nothing is logged, the reconciliation loop terminates, and the query
is not retried. -/
theorem discovery_error_no_partial_update (s : RelayState) :
    refresh_cameras_cycle s (Except.error ()) = (s, false, false) := rfl

/-- Claim C6: evaluation of the shrink branch at a failing input. With current
secondaries [b, c] (three channels: primary plus two) and discovery returning
the single secondary [a], refresh_cameras truncates the channel collection to
old_count - new_count = 1 channel, not to the new_count + 1 = 2 channels the
claim requires; the subsequent schedule_get_frames call indexes channel 1 and
raises IndexError. -/
theorem shrink_truncates_wrong_count :
    (refresh_cameras_step ⟨["b", "c"], [none, none, none]⟩
        ["a"]).1.camera_frame_queues.length = 1
      ∧ ¬ (1 = (["a"] : List Endpoint).length + 1) := by
  constructor
  · rfl
  · decide

/-- The possible outcomes of one iteration of a streaming generator: yield a
frame (leaving the queue emptied), block inside the queue get, or terminate
the generator. -/
inductive GenOutcome where
  | yieldFrame (f : Frame) (rest : FrameQueue)
  | blocked
  | stopped
  deriving DecidableEq

/-- One iteration of gen (streaming.py lines 57-61): an unconditional blocking
get followed by a yield; the while True loop has no termination branch. -/
def gen_step (q : FrameQueue) : GenOutcome :=
  match frame_queue_get q with
  | some (f, rest) => GenOutcome.yieldFrame f rest
  | none => GenOutcome.blocked

/-- One iteration of CameraFeed.generator_func (app.py lines 45-48): the loop
exits when the shared stop event is set at the start of the iteration;
otherwise it performs the same blocking get and yield as gen. -/
def generator_func_step (stop_event_set : Bool) (q : FrameQueue) : GenOutcome :=
  if stop_event_set then GenOutcome.stopped
  else
    match frame_queue_get q with
    | some (f, rest) => GenOutcome.yieldFrame f rest
    | none => GenOutcome.blocked

/-- The observable actions performed during a reconciliation swap, in program
order: set the shared stop event, join one worker thread, clear the stop
event, install the new producer set and channels, start one worker thread. -/
inductive SwapAction where
  | signalAll
  | joinWorker (url : Endpoint)
  | clearEvent
  | installSet
  | startWorker (url : Endpoint)
  deriving DecidableEq

/-- The action trace of schedule_get_frames (streaming.py lines 135-150): if
old workers exist, set the stop event, join each of them, clear the event;
then start the primary worker and one worker per secondary. -/
def schedule_get_frames_trace (old_workers : List Endpoint)
    (main_frame_source : Endpoint) (small_frame_sources : List Endpoint) :
    List SwapAction :=
  (if old_workers ≠ [] then
      SwapAction.signalAll ::
        (old_workers.map SwapAction.joinWorker ++ [SwapAction.clearEvent])
    else [])
    ++ SwapAction.startWorker main_frame_source
      :: small_frame_sources.map SwapAction.startWorker

/-- The action trace of one membership-changing refresh_cameras iteration in
streaming.py: the new sources and channels are installed (lines 87-96) before
schedule_get_frames stops, joins and restarts the workers (line 98). -/
def refresh_cameras_trace (old_workers : List Endpoint)
    (main_frame_source : Endpoint) (small_frame_sources : List Endpoint) :
    List SwapAction :=
  SwapAction.installSet ::
    schedule_get_frames_trace old_workers main_frame_source small_frame_sources

/-- The action trace of CameraDisplay.wait_handlers (app.py lines 95-103):
set the global stop event, join the main camera worker when present, join
each secondary worker, clear the event. -/
def wait_handlers_trace (main_camera : Option Endpoint)
    (small_cameras : List Endpoint) : List SwapAction :=
  SwapAction.signalAll ::
    ((match main_camera with
      | some u => [SwapAction.joinWorker u]
      | none => [])
      ++ small_cameras.map SwapAction.joinWorker ++ [SwapAction.clearEvent])

/-- The action trace of CameraDisplay.start_handlers (app.py lines 89-93). -/
def start_handlers_trace (main_camera : Option Endpoint)
    (small_cameras : List Endpoint) : List SwapAction :=
  (match main_camera with
    | some u => [SwapAction.startWorker u]
    | none => [])
    ++ small_cameras.map SwapAction.startWorker

/-- The action trace of CameraDisplay.merge (app.py lines 105-115):
wait_handlers, then install the new cameras, then start_handlers. -/
def merge_trace (old_main : Option Endpoint) (old_smalls : List Endpoint)
    (new_main : Option Endpoint) (new_smalls : List Endpoint) :
    List SwapAction :=
  wait_handlers_trace old_main old_smalls
    ++ SwapAction.installSet :: start_handlers_trace new_main new_smalls

/-- Recognise a join action. -/
def isJoin : SwapAction → Bool
  | SwapAction.joinWorker _ => true
  | _ => false

/-- Recognise a start action. -/
def isStart : SwapAction → Bool
  | SwapAction.startWorker _ => true
  | _ => false

/-- Recognise the install action. -/
def isInstall : SwapAction → Bool
  | SwapAction.installSet => true
  | _ => false

/-- allBefore p q tr holds when no action satisfying q is followed, anywhere
later in the trace, by an action satisfying p: every p-action precedes every
q-action. -/
def allBefore (p q : SwapAction → Bool) : List SwapAction → Bool
  | [] => true
  | a :: rest =>
      (!q a || rest.all (fun b => !p b)) && allBefore p q rest

/-- The value of the shared stop event after a trace of swap actions runs,
starting from the given value: signalAll sets it, clearEvent clears it, the
other actions leave it alone. -/
def stop_event_after (init : Bool) : List SwapAction → Bool
  | [] => init
  | SwapAction.signalAll :: rest => stop_event_after true rest
  | SwapAction.clearEvent :: rest => stop_event_after false rest
  | SwapAction.joinWorker _ :: rest => stop_event_after init rest
  | SwapAction.installSet :: rest => stop_event_after init rest
  | SwapAction.startWorker _ :: rest => stop_event_after init rest

/-- Helper: a map produces only actions satisfying p when f always does. -/
lemma all_map_of_forall {α : Type} (f : α → SwapAction) (p : SwapAction → Bool)
    (h : ∀ u, p (f u) = true) (l : List α) : (l.map f).all p = true := by
  induction l with
  | nil => rfl
  | cons a rest ih => simp [List.all_cons, h a, ih]

/-- Helper: a trace with no p-action satisfies allBefore p q. -/
lemma allBefore_of_all (p q : SwapAction → Bool) (l : List SwapAction)
    (h : l.all (fun a => !p a) = true) : allBefore p q l = true := by
  induction l with
  | nil => rfl
  | cons a rest ih =>
      rw [List.all_cons, Bool.and_eq_true] at h
      simp [allBefore, h.2, ih h.2]

/-- Helper: if the first segment has no q-action and the second no p-action,
every p-action precedes every q-action in the concatenation. -/
lemma allBefore_append (p q : SwapAction → Bool) (l₁ l₂ : List SwapAction)
    (h₁ : l₁.all (fun a => !q a) = true) (h₂ : l₂.all (fun a => !p a) = true) :
    allBefore p q (l₁ ++ l₂) = true := by
  induction l₁ with
  | nil => simpa using allBefore_of_all p q l₂ h₂
  | cons a rest ih =>
      rw [List.all_cons, Bool.and_eq_true] at h₁
      simp [allBefore, h₁.1, ih h₁.2]

/-- Helper: the stop event value after a concatenated trace. -/
lemma stop_event_after_append (l₁ l₂ : List SwapAction) (init : Bool) :
    stop_event_after init (l₁ ++ l₂)
      = stop_event_after (stop_event_after init l₁) l₂ := by
  induction l₁ generalizing init with
  | nil => rfl
  | cons a rest ih => cases a <;> simp [stop_event_after, ih]

/-- Helper: joining workers does not touch the stop event. -/
lemma stop_event_after_joins (l : List Endpoint) (init : Bool) :
    stop_event_after init (l.map SwapAction.joinWorker) = init := by
  induction l with
  | nil => rfl
  | cons a rest ih => simp [stop_event_after, ih]

/-- Helper: starting workers does not touch the stop event. -/
lemma stop_event_after_starts (l : List Endpoint) (init : Bool) :
    stop_event_after init (l.map SwapAction.startWorker) = init := by
  induction l with
  | nil => rfl
  | cons a rest ih => simp [stop_event_after, ih]

/-- Claim C7, counterexample: consuming is destructive. After Publish(a) one
reader consumes a, and the channel state it leaves behind is the empty slot,
so a second reader blocks instead of obtaining its own copy of a — the
published frame does not remain visible to every reader until overwritten or
closed. -/
theorem consume_not_broadcast :
    frame_queue_get (get_frames_publish none [1]) = some ([1], none)
      ∧ frame_queue_get (none : FrameQueue) = none := ⟨rfl, rfl⟩

/-- Claim C7, amended: the channel is a work queue, not a broadcast cell —
Consume removes the frame from the single slot, so after one reader consumes
a frame the slot is empty and any other reader blocks until the next publish
rather than receiving its own copy of the latest frame. -/
theorem consume_is_destructive :
    (∀ f : Frame, frame_queue_get (some f) = some (f, (none : FrameQueue)))
      ∧ frame_queue_get (none : FrameQueue) = none :=
  ⟨fun _ => rfl, rfl⟩

/-- Claim C8, counterexample: after a merge retires a channel the shared stop
event is back to false (wait_handlers sets it and clears it again), so the
generator of a stream over the retired, empty channel blocks inside the queue
get instead of terminating; the plain gen of streaming.py blocks as well, and
blocking is not the stopped outcome the claim requires. -/
theorem retired_stream_blocks :
    stop_event_after false (merge_trace (some "m") ["s"] (some "m") ["t"])
        = false
      ∧ generator_func_step
          (stop_event_after false (merge_trace (some "m") ["s"] (some "m") ["t"]))
          none = GenOutcome.blocked
      ∧ gen_step none = GenOutcome.blocked
      ∧ GenOutcome.blocked ≠ GenOutcome.stopped := by
  refine ⟨rfl, rfl, rfl, by decide⟩

/-- Claim C8, amended: the frame channel (a queue.Queue) has no Close
operation and no end-of-stream signal exists. The gen generator of
streaming.py can only yield or block, never terminate; in app.py the merge
choreography leaves the shared stop event cleared, and with the event cleared
generator_func behaves exactly like gen, so a consumer of a channel retired
by a reconciliation blocks indefinitely in Consume instead of observing a
close. -/
theorem no_close_signal :
    (∀ q : FrameQueue, gen_step q ≠ GenOutcome.stopped)
      ∧ (∀ (old_main new_main : Option Endpoint)
          (old_smalls new_smalls : List Endpoint),
          stop_event_after false
            (merge_trace old_main old_smalls new_main new_smalls) = false)
      ∧ (∀ q : FrameQueue, generator_func_step false q = gen_step q) := by
  refine ⟨?_, ?_, ?_⟩
  · intro q
    cases q <;> simp [gen_step, frame_queue_get, queue_get_nowait]
  · intro old_main new_main old_smalls new_smalls
    cases old_main <;> cases new_main <;>
      simp [merge_trace, wait_handlers_trace, start_handlers_trace,
        stop_event_after_append, stop_event_after, stop_event_after_joins,
        stop_event_after_starts]
  · intro q
    cases q <;> rfl

/-- Claim C9, counterexample: in the streaming.py revision a
membership-changing refresh_cameras iteration installs the new producer set
and channels first and only then has schedule_get_frames join the old
workers, so the joins do not all precede the install. -/
theorem install_before_join_in_streaming :
    allBefore isJoin isInstall (refresh_cameras_trace ["m", "b"] "m" ["d"])
      = false := by decide

/-- Claim C9, amended: during every reconciliation swap, every join of an old
worker precedes every start of a new worker, in both revisions — so no two
workers are ever publishing to the same channel index concurrently — and in
the CameraDisplay revision the joins also precede the install of the new
producer set; in the streaming.py revision, however, the install comes first.
-/
theorem joins_precede_starts (old_workers : List Endpoint)
    (main_frame_source : Endpoint) (small_frame_sources : List Endpoint)
    (old_main new_main : Option Endpoint)
    (old_smalls new_smalls : List Endpoint) :
    allBefore isJoin isStart
        (refresh_cameras_trace old_workers main_frame_source
          small_frame_sources) = true
      ∧ allBefore isJoin isStart
        (merge_trace old_main old_smalls new_main new_smalls) = true
      ∧ allBefore isJoin isInstall
        (merge_trace old_main old_smalls new_main new_smalls) = true := by
  refine ⟨?_, ?_, ?_⟩
  · unfold refresh_cameras_trace schedule_get_frames_trace
    by_cases h : old_workers = []
    · subst h
      apply allBefore_of_all
      simp [List.all_cons, List.all_append, isJoin,
        all_map_of_forall SwapAction.startWorker (fun a => !isJoin a)
          (fun _ => rfl)]
    · rw [if_pos h, ← List.cons_append, ← List.cons_append]
      apply allBefore_append
      · simp [List.all_cons, List.all_append, isStart,
          all_map_of_forall SwapAction.joinWorker (fun a => !isStart a)
            (fun _ => rfl)]
      · simp [List.all_cons, isJoin,
          all_map_of_forall SwapAction.startWorker (fun a => !isJoin a)
            (fun _ => rfl)]
  · unfold merge_trace
    apply allBefore_append
    · cases old_main <;>
        simp [wait_handlers_trace, List.all_cons, List.all_append, isStart,
          all_map_of_forall SwapAction.joinWorker (fun a => !isStart a)
            (fun _ => rfl)]
    · cases new_main <;>
        simp [start_handlers_trace, List.all_cons, List.all_append, isJoin,
          all_map_of_forall SwapAction.startWorker (fun a => !isJoin a)
            (fun _ => rfl)]
  · unfold merge_trace
    apply allBefore_append
    · cases old_main <;>
        simp [wait_handlers_trace, List.all_cons, List.all_append, isInstall,
          all_map_of_forall SwapAction.joinWorker (fun a => !isInstall a)
            (fun _ => rfl)]
    · cases new_main <;>
        simp [start_handlers_trace, List.all_cons, List.all_append, isJoin,
          all_map_of_forall SwapAction.startWorker (fun a => !isJoin a)
            (fun _ => rfl)]

/-- Python list indexing l[i]: a non-negative i must be below the length, a
negative i counts from the end; out of bounds on either side raises
IndexError (none). -/
def pyIdx (n : Nat) (i : Int) : Option Nat :=
  if 0 ≤ i then (if i < (n : Int) then some i.toNat else none)
  else (if 0 ≤ i + (n : Int) then some (i + (n : Int)).toNat else none)

/-- Python list subscription on a list of endpoints. -/
def pyListGet (l : List Endpoint) (i : Int) : Option Endpoint :=
  match pyIdx l.length i with
  | some k => l[k]?
  | none => none

/-- The possible responses of the camera_frame_feed route in streaming.py:
a multipart stream of the channel at a resolved index, an uncaught IndexError
(an HTTP 500 server error), the bare None return (also an HTTP 500 server
error in Flask), or a 4xx client error — the outcome the specification
expects, which the handler never produces. -/
inductive FeedResult where
  | stream (k : Nat)
  | indexError
  | noneResponse
  | clientError
  deriving DecidableEq

/-- The camera_frame_feed handler (streaming.py lines 68-76) over a channel
collection of length n: if camera_id <= n the handler streams
camera_frame_queues[camera_id] with Python indexing semantics, otherwise it
returns None. -/
def camera_frame_feed (n : Nat) (camera_id : Int) : FeedResult :=
  if camera_id ≤ (n : Int) then
    match pyIdx n camera_id with
    | some k => FeedResult.stream k
    | none => FeedResult.indexError
  else FeedResult.noneResponse

/-- The possible responses of CameraDisplay.stream_frames (app.py): a
multipart stream from the selected camera, the explicit Response(None, 500),
an uncaught IndexError (also surfacing as a server error), or a 4xx client
error, which the handler never produces. -/
inductive StreamResult where
  | streamOf (url : Endpoint)
  | error500
  | indexError
  | clientError
  deriving DecidableEq

/-- CameraDisplay.stream_frames (app.py lines 133-147): camera_id 0 selects
the main camera (None yields Response(None, 500)); otherwise, when
camera_id - 1 < len(small_cameras), the secondary at small_cameras
[camera_id - 1] is selected with Python indexing semantics; any other index
leaves the selection as None and yields Response(None, 500). -/
def stream_frames (main_camera : Option Endpoint)
    (small_cameras : List Endpoint) (camera_id : Int) : StreamResult :=
  if camera_id = 0 then
    match main_camera with
    | some u => StreamResult.streamOf u
    | none => StreamResult.error500
  else if camera_id - 1 < (small_cameras.length : Int) then
    match pyListGet small_cameras (camera_id - 1) with
    | some u => StreamResult.streamOf u
    | none => StreamResult.indexError
  else StreamResult.error500

/-- Helper: Python subscription at a natural index is plain list lookup. -/
lemma pyListGet_ofNat (l : List Endpoint) (k : Nat) :
    pyListGet l (k : Int) = l[k]? := by
  unfold pyListGet pyIdx
  by_cases hk : k < l.length
  · have h2 : (k : Int) < (l.length : Int) := by exact_mod_cast hk
    simp [Int.natCast_nonneg, h2]
  · have hk2 : l.length ≤ k := le_of_not_lt hk
    have h2 : ¬ ((k : Int) < (l.length : Int)) := by
      exact_mod_cast not_lt.mpr hk2
    simp [Int.natCast_nonneg, h2, List.getElem?_eq_none hk2]

/-- Claim C5, counterexample: requested index 2 with channel collection of
length 2 (one primary and one secondary) is outside the valid range [0, 2),
yet the handler raises IndexError (an HTTP 500 server error), not a client
error; and the out-of-range index -1 resolves to channel 1 and emits a
stream. -/
theorem out_of_range_not_client_error :
    camera_frame_feed 2 2 = FeedResult.indexError
      ∧ camera_frame_feed 2 (-1) = FeedResult.stream 1
      ∧ FeedResult.indexError ≠ FeedResult.clientError
      ∧ FeedResult.stream 1 ≠ FeedResult.clientError :=
  ⟨rfl, rfl, by decide, by decide⟩

/-- Claim C5, amended: in-range indices 0 <= i < n resolve to the channel at
index i, with no state change; out-of-range indices never produce a client
error: i = n raises IndexError (a server error), i > n returns None (a
server error), negative i with i + n >= 0 resolves to the channel at n + i
and streams it, and i + n < 0 raises IndexError; in the CameraDisplay
revision an out-of-range non-negative index yields the explicit HTTP 500
server error. -/
theorem camera_frame_feed_spec (n : Nat) (i : Int) :
    camera_frame_feed n i ≠ FeedResult.clientError
      ∧ (0 ≤ i → i < (n : Int) →
          camera_frame_feed n i = FeedResult.stream i.toNat)
      ∧ (i = (n : Int) → camera_frame_feed n i = FeedResult.indexError)
      ∧ ((n : Int) < i → camera_frame_feed n i = FeedResult.noneResponse)
      ∧ (i < 0 → 0 ≤ i + (n : Int) →
          camera_frame_feed n i = FeedResult.stream (i + (n : Int)).toNat)
      ∧ (i + (n : Int) < 0 → camera_frame_feed n i = FeedResult.indexError)
      ∧ (∀ (main_camera : Option Endpoint) (small_cameras : List Endpoint),
          0 ≤ i → (small_cameras.length : Int) < i →
          stream_frames main_camera small_cameras i = StreamResult.error500) := by
  refine ⟨?_, ?_, ?_, ?_, ?_, ?_, ?_⟩
  · unfold camera_frame_feed
    split
    · rcases h : pyIdx n i with _ | k <;> simp [h]
    · simp
  · intro h0 hn
    have hle : i ≤ (n : Int) := le_of_lt hn
    simp [camera_frame_feed, pyIdx, hle, h0, hn]
  · intro h
    subst h
    simp [camera_frame_feed, pyIdx, Int.natCast_nonneg]
  · intro h
    simp [camera_frame_feed, not_le.mpr h]
  · intro h1 h2
    have hle : i ≤ (n : Int) := by omega
    have h0 : ¬ (0 ≤ i) := by omega
    simp [camera_frame_feed, pyIdx, hle, h0, h2]
  · intro h
    have hle : i ≤ (n : Int) := by omega
    have h0 : ¬ (0 ≤ i) := by omega
    have h2 : ¬ (0 ≤ i + (n : Int)) := by omega
    simp [camera_frame_feed, pyIdx, hle, h0, h2]
  · intro main_camera small_cameras h0 hlt
    have hne : ¬ (i = 0) := by omega
    have hge : ¬ (i - 1 < (small_cameras.length : Int)) := by omega
    simp [stream_frames, hne, hge]

/-- Witness for C5 at a collection of three channels and concrete indices on
both sides of the range. -/
theorem camera_frame_feed_spec_witness :
    camera_frame_feed 3 1 = FeedResult.stream 1
      ∧ camera_frame_feed 3 3 = FeedResult.indexError
      ∧ camera_frame_feed 3 5 = FeedResult.noneResponse
      ∧ camera_frame_feed 3 (-2) = FeedResult.stream 1
      ∧ camera_frame_feed 3 (-4) = FeedResult.indexError
      ∧ stream_frames (some "m") ["s"] 4 = StreamResult.error500 :=
  ⟨((camera_frame_feed_spec 3 1).2.1 (by decide) (by decide)).trans rfl,
   (camera_frame_feed_spec 3 3).2.2.1 (by decide),
   (camera_frame_feed_spec 3 5).2.2.2.1 (by decide),
   ((camera_frame_feed_spec 3 (-2)).2.2.2.2.1 (by decide) (by decide)).trans rfl,
   (camera_frame_feed_spec 3 (-4)).2.2.2.2.2.1 (by decide),
   (camera_frame_feed_spec 1 4).2.2.2.2.2.2 (some "m") ["s"] (by decide)
     (by decide)⟩

/-- Claim C10, counterexample: with a primary and two secondaries, the
request for stream index -1 is answered with a multipart stream from the
first secondary camera, so secondaries are reachable at an index other than
1 and above. -/
theorem secondary_reachable_at_negative_index :
    stream_frames (some "m") ["s", "t"] (-1) = StreamResult.streamOf "s"
      ∧ ((-1 : Int) < 1) := ⟨rfl, by decide⟩

/-- Claim C10, amended: index 0 always resolves to the primary camera and
only to it — when no primary is configured a request for index 0 yields HTTP
500 even if secondaries exist — and secondaries are reachable at the indices
1 through len(small_cameras); in addition, Python negative indexing makes
them reachable at negative indices: with at least two secondaries, index -1
streams the secondary at position len - 2. -/
theorem stream_frames_index_contract (main_camera : Option Endpoint)
    (small_cameras : List Endpoint) :
    (stream_frames main_camera small_cameras 0
        = match main_camera with
          | some u => StreamResult.streamOf u
          | none => StreamResult.error500)
      ∧ (main_camera = none →
          stream_frames main_camera small_cameras 0 = StreamResult.error500)
      ∧ (∀ k : Nat, stream_frames main_camera small_cameras ((k : Int) + 1)
          = match small_cameras[k]? with
            | some u => StreamResult.streamOf u
            | none => StreamResult.error500)
      ∧ (2 ≤ small_cameras.length →
          stream_frames main_camera small_cameras (-1)
            = match small_cameras[small_cameras.length - 2]? with
              | some u => StreamResult.streamOf u
              | none => StreamResult.indexError) := by
  refine ⟨?_, ?_, ?_, ?_⟩
  · cases main_camera <;> rfl
  · intro h
    subst h
    rfl
  · intro k
    have hne : ¬ ((k : Int) + 1 = 0) := by omega
    have hsub : (k : Int) + 1 - 1 = (k : Int) := by ring
    by_cases hk : (k : Int) < (small_cameras.length : Int)
    · have hk' : k < small_cameras.length := by exact_mod_cast hk
      simp [stream_frames, hne, hsub, hk, pyListGet_ofNat,
        List.getElem?_eq_getElem hk']
    · have hkn : small_cameras.length ≤ k := by
        exact_mod_cast not_lt.mp hk
      simp [stream_frames, hne, hsub, hk, List.getElem?_eq_none hkn]
  · intro h2
    have hne : ¬ ((-1 : Int) = 0) := by decide
    have hlt : (-2 : Int) < (small_cameras.length : Int) := by omega
    have hpy : pyListGet small_cameras (-2)
        = small_cameras[small_cameras.length - 2]? := by
      unfold pyListGet pyIdx
      have h0 : ¬ ((0 : Int) ≤ -2) := by decide
      have h1 : (0 : Int) ≤ -2 + (small_cameras.length : Int) := by omega
      have hidx : ((-2 : Int) + (small_cameras.length : Int)).toNat
          = small_cameras.length - 2 := by omega
      simp [h0, h1, hidx]
    have hlt' : (-1 : Int) - 1 < (small_cameras.length : Int) := by omega
    simp only [stream_frames, if_neg hne, show (-1 : Int) - 1 = -2 from rfl,
      if_pos hlt, hpy]

/-- Witness for C10: no primary with two secondaries rejects index 0 with
HTTP 500; with a primary, index 2 streams the second secondary and index -1
streams the first. -/
theorem stream_frames_index_contract_witness :
    stream_frames none ["s", "t"] 0 = StreamResult.error500
      ∧ stream_frames (some "m") ["s", "t"] (((1 : Nat) : Int) + 1)
        = StreamResult.streamOf "t"
      ∧ stream_frames (some "m") ["s", "t"] (-1) = StreamResult.streamOf "s" :=
  ⟨(stream_frames_index_contract none ["s", "t"]).2.1 rfl,
   ((stream_frames_index_contract (some "m") ["s", "t"]).2.2.1 1).trans rfl,
   ((stream_frames_index_contract (some "m") ["s", "t"]).2.2.2
     (by decide)).trans rfl⟩

end VideoStreaming
